import Mathlib

/-!
Shallow embedding of `snake.js` (a browser Snake game) in Lean 4, together
with theorems settling a list of claims about its behaviour.

Modelling conventions:
* Grid coordinates are `Int` (JS numbers used as integers here).
* `Math.random()`-derived draws are abstracted: every place the source
  computes `Math.floor(Math.random() * k)` — a uniform element of
  `{0, …, k-1}` — the embedding takes an explicit `Nat` parameter `r` and
  uses `r % k`, which ranges over exactly the same set of values.
* Rendering (`draw`, canvas operations, colors) and `console.log` calls are
  pure I/O with no effect on game state and are not modelled.
* JS dynamic field access that can yield `undefined` is modelled with
  `Option Int` (`none` = `undefined`); JS `===` between a number and
  `undefined` is `false`, modelled by `some v == none = false`.
* The `while` loop in `refillFood` is modelled with explicit fuel returning
  `Option`: `some` means the loop exited (the JS call returned), `none`
  means the fuel ran out before the loop condition failed.
-/

/-- Board width, from `const WIDTH = 30`. -/
def WIDTH : Int := 30

/-- Board height, from `const HEIGHT = 30`. -/
def HEIGHT : Int := 30

/-- Growth bound for the random-growth variant, from `const MAX_SNAKE_GROWTH = 6`. -/
def MAX_SNAKE_GROWTH : Nat := 6

/-- Direction of travel: the four strings "up" / "down" / "left" / "right"
used by `snake.js`. -/
inductive Dir where
  | up
  | down
  | left
  | right
deriving DecidableEq, Repr

/-- A single cell on the game board (class `Point`). -/
structure Point where
  x : Int
  y : Int
deriving DecidableEq, Repr

/-- `Point.isOutOfBound`: `return (this.x <= 0 || this.x >= WIDTH || this.y <= 0 || this.y >= HEIGHT)`. -/
def Point.isOutOfBound (p : Point) : Bool :=
  p.x ≤ 0 || p.x ≥ WIDTH || p.y ≤ 0 || p.y ≥ HEIGHT

/-- `randRange(low, hi)` inside `Point.newRandom`:
`low + Math.floor(Math.random() * (hi - low))`, a uniform integer in
`[low, hi)`; the random draw is abstracted as `r % (hi - low)`. -/
def randRange (low hi : Int) (r : Nat) : Int :=
  low + (r % (hi - low).toNat)

/-- `Point.newRandom()`: `new Point(randRange(1, WIDTH), randRange(1, HEIGHT))`. -/
def Point.newRandom (rx ry : Nat) : Point :=
  ⟨randRange 1 WIDTH rx, randRange 1 HEIGHT ry⟩

/-- A food pellet (class `Pellet`): wraps one `Point` in its `pt` field. -/
structure Pellet where
  pt : Point
deriving DecidableEq, Repr

/-- `Pellet.newRandom()`: a pellet at `Point.newRandom()`. -/
def Pellet.newRandom (rx ry : Nat) : Pellet :=
  ⟨Point.newRandom rx ry⟩

/-- The snake (class `Snake`). The `color` argument is render-only and not
modelled. `keymap` is the key-to-direction mapping; JS object lookup is an
association-list lookup here. -/
structure Snake where
  keymap : List (String × Dir)
  parts : List Point
  dir : Dir
  nextDir : Dir
  growBy : Nat
deriving DecidableEq, Repr

/-- The `Snake` constructor: `parts = [start]`, `dir = nextDir = dir`,
`growBy = 0`. -/
def Snake.init (keymap : List (String × Dir)) (start : Point) (dir : Dir) : Snake :=
  { keymap := keymap, parts := [start], dir := dir, nextDir := dir, growBy := 0 }

/-- `Snake.head()`: `this.parts[0]`. The JS code never calls it on an empty
body (`parts` starts nonempty and `move` keeps it so); out of range the JS
index would give `undefined`, here a default point is supplied. -/
def Snake.headPt (s : Snake) : Point :=
  s.parts.headD ⟨0, 0⟩

/-- `Snake.contains(pt)` with the dynamic field accesses made explicit:
`this.parts.some(me => me.x === pt.x && me.y === pt.y)`. The argument is
whatever object was passed; its `.x` / `.y` accesses may yield `undefined`
(`none`). Comparing a number with `undefined` via `===` is `false`. -/
def Snake.containsXY (s : Snake) (qx qy : Option Int) : Bool :=
  s.parts.any (fun me => (some me.x == qx) && (some me.y == qy))

/-- `Snake.contains` applied to an actual `Point`, whose `.x` / `.y` are
defined. -/
def Snake.contains (s : Snake) (pt : Point) : Bool :=
  s.containsXY (some pt.x) (some pt.y)

/-- `Snake.checkCrashIntoWall()`: `this.head().isOutOfBound()`. -/
def Snake.checkCrashIntoWall (s : Snake) : Bool :=
  s.headPt.isOutOfBound

/-- `Snake.checkCrashIntoSelf()`: some element of `this.parts.slice(1)`
has the head's coordinates. -/
def Snake.checkCrashIntoSelf (s : Snake) : Bool :=
  let head := s.headPt
  (s.parts.drop 1).any (fun me => me.x == head.x && me.y == head.y)

/-- `Snake.determineNextMove()`: `this.dir = this.nextDir`. -/
def Snake.determineNextMove (s : Snake) : Snake :=
  { s with dir := s.nextDir }

/-- The new-head computation in `Snake.move()`: one cell from `(x, y)` in
direction `d` (`left`: x-1, `right`: x+1, `up`: y-1, `down`: y+1). -/
def movePoint (d : Dir) (x y : Int) : Point :=
  match d with
  | .left => ⟨x - 1, y⟩
  | .right => ⟨x + 1, y⟩
  | .up => ⟨x, y - 1⟩
  | .down => ⟨x, y + 1⟩

/-- `Snake.move()`: read head coordinates, resolve the direction via
`determineNextMove`, unshift the new head, then either pop the tail
(`growBy === 0`) or decrement `growBy`. -/
def Snake.move (s : Snake) : Snake :=
  let x := s.headPt.x
  let y := s.headPt.y
  let s1 := s.determineNextMove
  let pt := movePoint s1.dir x y
  let parts1 := pt :: s1.parts
  if s1.growBy = 0 then
    { s1 with parts := parts1.dropLast }
  else
    { s1 with parts := parts1, growBy := s1.growBy - 1 }

/-- `Snake.checkIsNinetyDegree(nextDir)`: a horizontal `this.dir` accepts
only `up`/`down`; a vertical one only `left`/`right`. -/
def Snake.checkIsNinetyDegree (s : Snake) (nd : Dir) : Bool :=
  match s.dir with
  | .left | .right => nd == .up || nd == .down
  | .up | .down => nd == .left || nd == .right

/-- `Snake.changeDir(dir)`: `this.nextDir = dir`. -/
def Snake.changeDir (s : Snake) (d : Dir) : Snake :=
  { s with nextDir := d }

/-- `Snake.handleKey(key)`: look the key up in the keymap; if it maps to a
direction and `checkIsNinetyDegree` accepts it, `changeDir`; otherwise do
nothing. -/
def Snake.handleKey (s : Snake) (key : String) : Snake :=
  match s.keymap.lookup key with
  | none => s
  | some d => if s.checkIsNinetyDegree d then s.changeDir d else s

/-- `Snake.growSnakeBy()` (base growth policy): `this.growBy += 2`. -/
def Snake.growSnakeBy (s : Snake) : Snake :=
  { s with growBy := s.growBy + 2 }

/-- `Snake.eats(food)`: find the first pellet whose `pt` equals the head's
coordinates; if found, grow and return it. -/
def Snake.eats (s : Snake) (food : List Pellet) : Snake × Option Pellet :=
  let head := s.headPt
  match food.find? (fun f => f.pt.x == head.x && f.pt.y == head.y) with
  | some pellet => (s.growSnakeBy, some pellet)
  | none => (s, none)

/-- The restless variant (class `ImpatientSnake extends Snake`): adds
`pastMoves` (initialised to `[dir]`) and `sameMoves = 8`. -/
structure ImpatientSnake extends Snake where
  pastMoves : List Dir
  sameMoves : Nat
deriving DecidableEq, Repr

/-- The `ImpatientSnake` constructor: the base constructor plus
`pastMoves = [dir]`, `sameMoves = 8`. -/
def ImpatientSnake.init (keymap : List (String × Dir)) (start : Point) (dir : Dir) :
    ImpatientSnake :=
  { Snake.init keymap start dir with pastMoves := [dir], sameMoves := 8 }

/-- `ImpatientSnake.checkPastMovesAllSame()`: take the last `sameMoves`
entries of `pastMoves` (`slice(length - sameMoves)`) and test that every
entry equals the first of that window (`every` on the empty window is
`true`). The call site guards `pastMoves.length >= sameMoves`, so the JS
slice start is never negative. -/
def checkPastMovesAllSame (pastMoves : List Dir) (sameMoves : Nat) : Bool :=
  let start := pastMoves.length - sameMoves
  let window := pastMoves.drop start
  match window with
  | [] => true
  | d0 :: _ => window.all (fun d => d == d0)

/-- `ImpatientSnake.randomMove(nextDir)`: `1 + Math.floor(Math.random()*2)`
picks 1 or 2 (here `1 + r % 2`); for a horizontal `nextDir` the result is
`up` (1) or `down` (2), for a vertical one `left` (1) or `right` (2). -/
def randomMove (nextDir : Dir) (r : Nat) : Dir :=
  let rm := 1 + r % 2
  match nextDir with
  | .left | .right => if rm = 1 then .up else .down
  | .up | .down => if rm = 1 then .left else .right

/-- `ImpatientSnake.determineNextMove()`: if the last `sameMoves` entries of
`pastMoves` are all the same (and there are at least that many), first
overwrite `nextDir` with `randomMove(nextDir)`; then `dir = nextDir` and
push the resolved `dir` onto `pastMoves`. `r` abstracts the random draw. -/
def ImpatientSnake.determineNextMove (s : ImpatientSnake) (r : Nat) : ImpatientSnake :=
  let s1 :=
    if s.pastMoves.length ≥ s.sameMoves && checkPastMovesAllSame s.pastMoves s.sameMoves then
      { s with nextDir := randomMove s.nextDir r }
    else s
  let s2 := { s1 with dir := s1.nextDir }
  { s2 with pastMoves := s2.pastMoves ++ [s2.dir] }

/-- `ImpatientSnake.handleKey` is inherited from `Snake` unchanged: it acts
on the base fields and leaves `pastMoves` alone. -/
def ImpatientSnake.handleKey (s : ImpatientSnake) (key : String) : ImpatientSnake :=
  { s with toSnake := s.toSnake.handleKey key }

/-- `move()` as executed by an `ImpatientSnake`: the inherited `Snake.move`
body, but dispatching to the overridden `determineNextMove`. -/
def ImpatientSnake.move (s : ImpatientSnake) (r : Nat) : ImpatientSnake :=
  let x := s.toSnake.headPt.x
  let y := s.toSnake.headPt.y
  let s1 := s.determineNextMove r
  let pt := movePoint s1.dir x y
  let parts1 := pt :: s1.parts
  if s1.growBy = 0 then
    { s1 with parts := parts1.dropLast }
  else
    { s1 with parts := parts1, growBy := s1.growBy - 1 }

/-- A keydown listener registered on `document`. `Game.start` registers
`this.keyListener.bind(this)` — a fresh function object (`bound`); the
`removeEventListener` call in `Game.tick` passes the unbound method
`this.keyListener`, a different function object (`unbound`). -/
inductive Listener where
  | bound
  | unbound
deriving DecidableEq, Repr

/-- The game (class `Game`). `timerActive` models whether the interval
timer set by `start` is still scheduled; `listeners` models the keydown
listeners currently attached to `document`. -/
structure Game where
  snake : Snake
  food : List Pellet
  numFood : Nat
  timerActive : Bool
  listeners : List Listener
deriving DecidableEq, Repr

/-- The `Game` constructor: `food = []`, `numFood` defaults to 3, no timer. -/
def Game.init (snake : Snake) (numFood : Nat := 3) : Game :=
  { snake := snake, food := [], numFood := numFood, timerActive := false, listeners := [] }

/-- `Game.start()`: `document.addEventListener("keydown", this.keyListener.bind(this))`
registers the bound function object, and the interval timer starts. -/
def Game.start (g : Game) : Game :=
  { g with listeners := g.listeners ++ [Listener.bound], timerActive := true }

/-- `Game.isPelletOnSnake(pellet)`: `this.snake.contains(pellet)` — the
`Pellet` object itself is passed, so inside `contains` the accesses
`pellet.x` and `pellet.y` hit missing fields and yield `undefined`
(a Pellet stores its point under `.pt`). -/
def Game.isPelletOnSnake (g : Game) (_pellet : Pellet) : Bool :=
  g.snake.containsXY none none

/-- `Game.refillFood()`: `while (food.length < numFood)` draw a random
pellet and push it when `isPelletOnSnake` is `false`. The loop is given
explicit fuel and a list of random draws; `some` means the JS call
returned, `none` that the fuel or the draws ran out first. -/
def Game.refillFood (fuel : Nat) (rng : List (Nat × Nat)) (g : Game) : Option Game :=
  match fuel with
  | 0 => if g.food.length < g.numFood then none else some g
  | fuel' + 1 =>
    if g.food.length < g.numFood then
      match rng with
      | [] => none
      | (rx, ry) :: rest =>
        let newPellet := Pellet.newRandom rx ry
        let g' :=
          if g.isPelletOnSnake newPellet = false then
            { g with food := g.food ++ [newPellet] }
          else g
        Game.refillFood fuel' rest g'
    else some g

/-- `Game.removeFood(pellet)`: keep exactly the pellets `f` with
`f.pt.x !== pellet.pt.x && f.pt.y !== pellet.pt.y`. -/
def Game.removeFood (g : Game) (pellet : Pellet) : Game :=
  { g with food := g.food.filter (fun f => f.pt.x != pellet.pt.x && f.pt.y != pellet.pt.y) }

/-- `Game.keyListener(evt)` reaching the snake: the browser dispatches a
keydown to the attached listeners; the bound listener registered by
`start` calls `this.snake.handleKey(evt.key)`. If no listener is attached
the event changes nothing. -/
def Game.dispatchKeydown (g : Game) (key : String) : Game :=
  if Listener.bound ∈ g.listeners then
    { g with snake := g.snake.handleKey key }
  else g

/-- `Game.tick()`: if the snake has crashed (wall or self), clear the
interval timer and call `removeEventListener("keydown", this.keyListener)`
— which removes the unbound function object — and return; otherwise move,
possibly eat (removing the eaten pellet), and refill the food. Canvas
drawing is render-only and not modelled. -/
def Game.tick (g : Game) (fuel : Nat) (rng : List (Nat × Nat)) : Option Game :=
  let isDead := g.snake.checkCrashIntoWall || g.snake.checkCrashIntoSelf
  if isDead then
    some { g with timerActive := false,
                  listeners := g.listeners.filter (fun l => l != Listener.unbound) }
  else
    let gMoved := { g with snake := g.snake.move }
    let eaten := gMoved.snake.eats gMoved.food
    let gAte := { gMoved with snake := eaten.1 }
    let gRemoved :=
      match eaten.2 with
      | some p => gAte.removeFood p
      | none => gAte
    Game.refillFood fuel rng gRemoved

/-- Iterated ticks: run `Game.tick` once per element of `inputs` (each a
fuel / random-draw pair for that tick), propagating failure. -/
def Game.ticks (inputs : List (Nat × List (Nat × Nat))) (g : Game) : Option Game :=
  match inputs with
  | [] => some g
  | (fuel, rng) :: rest =>
    match g.tick fuel rng with
    | none => none
    | some g' => Game.ticks rest g'

/-- The keymap of `snake1` in the setup code: arrow keys to directions. -/
def arrowKeymap : List (String × Dir) :=
  [("ArrowLeft", Dir.left), ("ArrowRight", Dir.right),
   ("ArrowUp", Dir.up), ("ArrowDown", Dir.down)]

/-- A concrete snake used to settle C4's witness: body of length 2,
heading right, growth debt 1. -/
def c4Snake : Snake :=
  { keymap := arrowKeymap, parts := [⟨10, 10⟩, ⟨9, 10⟩], dir := Dir.right,
    nextDir := Dir.up, growBy := 1 }

/-- The snake of the C2 scenario: body `[(5,5),(4,5),(3,5)]`, heading
right, pending heading right, arrow-key keymap. -/
def c2Snake : Snake :=
  { keymap := arrowKeymap, parts := [⟨5, 5⟩, ⟨4, 5⟩, ⟨3, 5⟩], dir := Dir.right,
    nextDir := Dir.right, growBy := 0 }

/-- The game of the C1 failing input: two pellets sharing an x coordinate,
the snake's head on the first of them. -/
def c1Game : Game :=
  { snake := Snake.init arrowKeymap ⟨3, 4⟩ Dir.right,
    food := [⟨⟨3, 4⟩⟩, ⟨⟨3, 7⟩⟩], numFood := 3, timerActive := true,
    listeners := [Listener.bound] }

/-- The game of the C6 failing input: the snake occupies (10,10), the food
set is empty, one pellet is wanted, and the random draws map to (10,10)
(`randRange 1 30` with draw 9 gives `1 + 9 % 29 = 10`). -/
def c6Game : Game :=
  { snake := { keymap := arrowKeymap, parts := [⟨10, 10⟩], dir := Dir.right,
               nextDir := Dir.right, growBy := 0 },
    food := [], numFood := 1, timerActive := true, listeners := [Listener.bound] }

/-- A fresh restless snake, heading right from (20,20), as `snake1` in the
setup code. -/
def c7Snake0 : ImpatientSnake :=
  ImpatientSnake.init arrowKeymap ⟨20, 20⟩ Dir.right

/-- A run of the restless snake: turn up, resolve eight ticks (all moving
up), turn left, then resolve once more. At that last resolution the last
eight history entries are all `up`, so `nextDir` (left) is overridden by
`randomMove left` — which with draw 0 is `up` again. -/
def c7Trace : ImpatientSnake :=
  ((((((((((c7Snake0.handleKey "ArrowUp").move 0).move 0).move 0).move 0).move
    0).move 0).move 0).move 0).handleKey "ArrowLeft").move 0

/-- A restless snake held at heading up: the last eight history entries
and the pending heading are all `up`. -/
def c7HeldSnake : ImpatientSnake :=
  { keymap := arrowKeymap, parts := [⟨20, 12⟩], dir := Dir.up, nextDir := Dir.up,
    growBy := 0, pastMoves := List.replicate 8 Dir.up, sameMoves := 8 }

/-- The game of the C8 failing input: a freshly started game whose snake
is at (0,15), so the first tick is terminal. -/
def c8Game : Game :=
  Game.init (Snake.init arrowKeymap ⟨0, 15⟩ Dir.right) 3

/-- The game of the C10 run: the snake away at (20,20), one pellet already
at (5,5), target two pellets, and a draw mapping to (5,5) again
(`randRange 1 30` with draw 4 gives `1 + 4 % 29 = 5`). -/
def c10Game : Game :=
  { snake := { keymap := arrowKeymap, parts := [⟨20, 20⟩], dir := Dir.right,
               nextDir := Dir.right, growBy := 0 },
    food := [⟨⟨5, 5⟩⟩], numFood := 2, timerActive := true, listeners := [Listener.bound] }

/-- The game of the C3 witness: the spec's scenario, a snake whose head
reached (0,15), with the timer running. -/
def c3Game : Game :=
  { snake := { keymap := arrowKeymap, parts := [⟨0, 15⟩, ⟨1, 15⟩], dir := Dir.left,
               nextDir := Dir.left, growBy := 0 },
    food := [⟨⟨5, 5⟩⟩], numFood := 3, timerActive := true, listeners := [Listener.bound] }

/-- C9: `isOutOfBound(pos)` is true iff `pos.x <= 0 || pos.x >= WIDTH ||
pos.y <= 0 || pos.y >= HEIGHT`, and false exactly when both coordinates
are strictly between 0 and the corresponding dimension. -/
theorem c9_isOutOfBound_spec (p : Point) :
    (p.isOutOfBound = true ↔ p.x ≤ 0 ∨ p.x ≥ WIDTH ∨ p.y ≤ 0 ∨ p.y ≥ HEIGHT) ∧
    (p.isOutOfBound = false ↔ 0 < p.x ∧ p.x < WIDTH ∧ 0 < p.y ∧ p.y < HEIGHT) := by
  simp only [Point.isOutOfBound, WIDTH, HEIGHT, Bool.or_eq_true, decide_eq_true_eq,
    Bool.or_eq_false_iff, decide_eq_false_iff_not, ge_iff_le, not_le]
  omega

/-- Unfolding of `handleKey` on an unmapped key. -/
theorem handleKey_unmapped (s : Snake) (key : String)
    (hl : s.keymap.lookup key = none) : s.handleKey key = s := by
  simp [Snake.handleKey, hl]

/-- Unfolding of `handleKey` on a mapped key passing the 90-degree check. -/
theorem handleKey_accepted (s : Snake) (key : String) (d : Dir)
    (hl : s.keymap.lookup key = some d) (hc : s.checkIsNinetyDegree d = true) :
    s.handleKey key = s.changeDir d := by
  simp [Snake.handleKey, hl, hc]

/-- Unfolding of `handleKey` on a mapped key failing the 90-degree check. -/
theorem handleKey_rejected (s : Snake) (key : String) (d : Dir)
    (hl : s.keymap.lookup key = some d) (hc : s.checkIsNinetyDegree d = false) :
    s.handleKey key = s := by
  simp [Snake.handleKey, hl, hc]

/-- `checkIsNinetyDegree` holds exactly on the perpendicular pairs. -/
theorem checkIsNinetyDegree_iff (s : Snake) (d : Dir) :
    s.checkIsNinetyDegree d = true ↔
      (((s.dir = Dir.left ∨ s.dir = Dir.right) ∧ (d = Dir.up ∨ d = Dir.down)) ∨
        ((s.dir = Dir.up ∨ s.dir = Dir.down) ∧ (d = Dir.left ∨ d = Dir.right))) := by
  cases hd : s.dir <;> cases d <;> simp [Snake.checkIsNinetyDegree, hd]

/-- `handleKey` either leaves the snake unchanged or only sets `nextDir`. -/
theorem handleKey_cases (s : Snake) (key : String) :
    s.handleKey key = s ∨ ∃ d, s.handleKey key = s.changeDir d := by
  cases hl : s.keymap.lookup key with
  | none => exact Or.inl (handleKey_unmapped s key hl)
  | some d =>
    cases hc : s.checkIsNinetyDegree d with
    | false => exact Or.inl (handleKey_rejected s key d hl hc)
    | true => exact Or.inr ⟨d, handleKey_accepted s key d hl hc⟩

/-- C5: `handleKey` changes the snake only when the key is mapped and the
mapped direction is perpendicular to the current heading `dir` (horizontal
heading accepts only up/down, vertical only left/right); an accepted
request sets only `nextDir`; otherwise — unmapped key, same-axis request
(no-op or reversal) — the snake is unchanged; `dir`, `parts`, `growBy`,
`keymap` are never modified by `handleKey`. -/
theorem c5_handleKey_spec (s : Snake) (key : String) :
    (s.keymap.lookup key = none → s.handleKey key = s) ∧
    (∀ d, s.keymap.lookup key = some d →
      (((s.dir = Dir.left ∨ s.dir = Dir.right) ∧ (d = Dir.up ∨ d = Dir.down)) ∨
        ((s.dir = Dir.up ∨ s.dir = Dir.down) ∧ (d = Dir.left ∨ d = Dir.right)) →
          s.handleKey key = { s with nextDir := d }) ∧
      (¬ ((((s.dir = Dir.left ∨ s.dir = Dir.right) ∧ (d = Dir.up ∨ d = Dir.down)) ∨
        ((s.dir = Dir.up ∨ s.dir = Dir.down) ∧ (d = Dir.left ∨ d = Dir.right)))) →
          s.handleKey key = s)) ∧
    (s.handleKey key).dir = s.dir ∧
    (s.handleKey key).parts = s.parts ∧
    (s.handleKey key).growBy = s.growBy ∧
    (s.handleKey key).keymap = s.keymap := by
  have hframe : (s.handleKey key).dir = s.dir ∧ (s.handleKey key).parts = s.parts ∧
      (s.handleKey key).growBy = s.growBy ∧ (s.handleKey key).keymap = s.keymap := by
    rcases handleKey_cases s key with he | ⟨d, he⟩ <;> rw [he] <;>
      simp [Snake.changeDir]
  refine ⟨handleKey_unmapped s key, ?_, hframe.1, hframe.2.1, hframe.2.2.1, hframe.2.2.2⟩
  intro d hl
  constructor
  · intro hp
    rw [handleKey_accepted s key d hl ((checkIsNinetyDegree_iff s d).mpr hp)]
    rfl
  · intro hnp
    have hc : s.checkIsNinetyDegree d = false := by
      cases hcb : s.checkIsNinetyDegree d with
      | false => rfl
      | true => exact absurd ((checkIsNinetyDegree_iff s d).mp hcb) hnp
    exact handleKey_rejected s key d hl hc

/-- C4: `move()` resolves `dir := nextDir`, prepends a new head one cell
from the old head in the resolved direction (left: x-1, right: x+1,
up: y-1, down: y+1); with `growBy = 0` the tail is popped and the length
is unchanged, with `growBy > 0` the length grows by exactly 1 and `growBy`
drops by exactly 1; afterwards the body is never empty. -/
theorem c4_move_spec (s : Snake) (p : Point) (rest : List Point)
    (h : s.parts = p :: rest) :
    s.move.dir = s.nextDir ∧
    s.move.parts.head? = some (movePoint s.nextDir p.x p.y) ∧
    (s.nextDir = Dir.left → s.move.parts.head? = some ⟨p.x - 1, p.y⟩) ∧
    (s.nextDir = Dir.right → s.move.parts.head? = some ⟨p.x + 1, p.y⟩) ∧
    (s.nextDir = Dir.up → s.move.parts.head? = some ⟨p.x, p.y - 1⟩) ∧
    (s.nextDir = Dir.down → s.move.parts.head? = some ⟨p.x, p.y + 1⟩) ∧
    (s.growBy = 0 → s.move.parts.length = s.parts.length ∧ s.move.growBy = 0) ∧
    (0 < s.growBy → s.move.parts.length = s.parts.length + 1 ∧ s.move.growBy + 1 = s.growBy) ∧
    1 ≤ s.move.parts.length := by
  have hhead : s.headPt = p := by simp [Snake.headPt, h]
  unfold Snake.move Snake.determineNextMove
  rw [hhead, h]
  rcases Nat.eq_zero_or_pos s.growBy with hg | hg
  · rw [if_pos hg]
    refine ⟨rfl, rfl, ?_, ?_, ?_, ?_, fun _ => ⟨?_, hg⟩, ?_, ?_⟩
    · intro hd; rw [hd]; rfl
    · intro hd; rw [hd]; rfl
    · intro hd; rw [hd]; rfl
    · intro hd; rw [hd]; rfl
    · simp [List.length_dropLast]
    · intro hd; exact absurd hg (Nat.pos_iff_ne_zero.mp hd)
    · simp [List.length_dropLast]
  · rw [if_neg (Nat.pos_iff_ne_zero.mp hg)]
    refine ⟨rfl, rfl, ?_, ?_, ?_, ?_, ?_, fun _ => ⟨?_, ?_⟩, ?_⟩
    · intro hd; rw [hd]; rfl
    · intro hd; rw [hd]; rfl
    · intro hd; rw [hd]; rfl
    · intro hd; rw [hd]; rfl
    · intro hd; exact absurd hd (Nat.pos_iff_ne_zero.mp hg)
    · simp
    · simp; omega
    · simp

/-- Witness for C4 at a concrete snake. -/
theorem c4_move_spec_witness :
    c4Snake.move.dir = c4Snake.nextDir ∧
    c4Snake.move.parts.head? = some (movePoint c4Snake.nextDir 10 10) ∧
    (c4Snake.nextDir = Dir.left → c4Snake.move.parts.head? = some ⟨10 - 1, 10⟩) ∧
    (c4Snake.nextDir = Dir.right → c4Snake.move.parts.head? = some ⟨10 + 1, 10⟩) ∧
    (c4Snake.nextDir = Dir.up → c4Snake.move.parts.head? = some ⟨10, 10 - 1⟩) ∧
    (c4Snake.nextDir = Dir.down → c4Snake.move.parts.head? = some ⟨10, 10 + 1⟩) ∧
    (c4Snake.growBy = 0 → c4Snake.move.parts.length = c4Snake.parts.length ∧
      c4Snake.move.growBy = 0) ∧
    (0 < c4Snake.growBy → c4Snake.move.parts.length = c4Snake.parts.length + 1 ∧
      c4Snake.move.growBy + 1 = c4Snake.growBy) ∧
    1 ≤ c4Snake.move.parts.length :=
  c4_move_spec c4Snake ⟨10, 10⟩ [⟨9, 10⟩] rfl

/-- Witness for C5 at a concrete snake and key: heading right, request up
(mapped and perpendicular) is accepted and sets only `nextDir`. -/
theorem c5_handleKey_spec_witness :
    c4Snake.handleKey "ArrowUp" = { c4Snake with nextDir := Dir.up } :=
  ((c5_handleKey_spec c4Snake "ArrowUp").2.1 Dir.up (by decide)).1 (by decide)

/-- C2 counterexample: after accepting up, a request for down arriving
before the next tick is NOT rejected — the final pending heading is not
up. -/
theorem c2_counterexample :
    ((c2Snake.handleKey "ArrowUp").handleKey "ArrowDown").nextDir ≠ Dir.up := by
  decide

/-- C2 amended: `checkIsNinetyDegree` compares the request against the
current heading `dir` (still right, since `handleKey` never touches
`dir`), not against the just-updated `nextDir`; down is perpendicular to
right, so the second request is accepted and the final pending heading is
down. -/
theorem c2_amended :
    (c2Snake.handleKey "ArrowUp").nextDir = Dir.up ∧
    (c2Snake.handleKey "ArrowUp").dir = Dir.right ∧
    (c2Snake.handleKey "ArrowUp").checkIsNinetyDegree Dir.down = true ∧
    ((c2Snake.handleKey "ArrowUp").handleKey "ArrowDown").nextDir = Dir.down := by
  decide

/-- C1: `removeFood` keeps only pellets differing from the eaten pellet in
BOTH coordinates, so removing the pellet at (3,4) also deletes the pellet
at (3,7) — a different position that the claim says must remain. -/
theorem c1_removeFood_bug :
    (c1Game.snake.eats c1Game.food).2 = some ⟨⟨3, 4⟩⟩ ∧
    Pellet.mk ⟨3, 7⟩ ∈ c1Game.food ∧
    Point.mk 3 7 ≠ Point.mk 3 4 ∧
    (c1Game.removeFood ⟨⟨3, 4⟩⟩).food = [] := by
  decide

/-- On a crashed snake, `tick` only clears the timer and attempts the
listener removal; snake and food are untouched. -/
theorem tick_dead_eq (g : Game)
    (h : (g.snake.checkCrashIntoWall || g.snake.checkCrashIntoSelf) = true)
    (fuel : Nat) (rng : List (Nat × Nat)) :
    g.tick fuel rng = some { g with timerActive := false,
                                    listeners := g.listeners.filter (fun l => l != Listener.unbound) } := by
  simp [Game.tick, h]

/-- Iterating `tick` from a crashed game never changes snake or food, and
keeps the timer cancelled once it is. -/
theorem ticks_dead (inputs : List (Nat × List (Nat × Nat))) (g : Game)
    (h : (g.snake.checkCrashIntoWall || g.snake.checkCrashIntoSelf) = true) :
    ∃ g'', Game.ticks inputs g = some g'' ∧ g''.snake = g.snake ∧ g''.food = g.food ∧
      (g.timerActive = false → g''.timerActive = false) := by
  induction inputs generalizing g with
  | nil => exact ⟨g, rfl, rfl, rfl, fun hf => hf⟩
  | cons i rest ih =>
    obtain ⟨fuel, rng⟩ := i
    obtain ⟨g'', hg'', hs, hf, ht⟩ :=
      ih { g with timerActive := false,
                  listeners := g.listeners.filter (fun l => l != Listener.unbound) } h
    refine ⟨g'', ?_, hs, hf, fun _ => ht rfl⟩
    simp only [Game.ticks, tick_dead_eq g h fuel rng]
    exact hg''

/-- C3: if the snake is already crashed (wall or self) at the start of a
tick, that tick returns with the snake (body, heading, pending heading,
growth debt) and the food set unchanged, the interval timer cancelled,
and every further tick — hence every further `move()` — also leaves them
unchanged with the timer still cancelled: Stopped is terminal. -/
theorem c3_tick_terminal (g : Game)
    (h : (g.snake.checkCrashIntoWall || g.snake.checkCrashIntoSelf) = true)
    (fuel : Nat) (rng : List (Nat × Nat)) (inputs : List (Nat × List (Nat × Nat))) :
    ∃ g', g.tick fuel rng = some g' ∧
      g'.snake = g.snake ∧ g'.food = g.food ∧ g'.timerActive = false ∧
      ∃ g'', Game.ticks inputs g' = some g'' ∧
        g''.snake = g.snake ∧ g''.food = g.food ∧ g''.timerActive = false := by
  refine ⟨_, tick_dead_eq g h fuel rng, rfl, rfl, rfl, ?_⟩
  obtain ⟨g'', hg'', hs, hf, ht⟩ :=
    ticks_dead inputs
      { g with timerActive := false,
               listeners := g.listeners.filter (fun l => l != Listener.unbound) } h
  exact ⟨g'', hg'', hs, hf, ht rfl⟩

/-- C6: `refillFood` places a pellet on a cell occupied by the snake's
body: `isPelletOnSnake` passes the `Pellet` object to `contains`, whose
`.x`/`.y` accesses hit missing fields (`undefined`), so the test is always
false and the on-snake pellet (10,10) is accepted. -/
theorem c6_refill_on_snake_bug :
    Game.refillFood 1 [(9, 9)] c6Game = some { c6Game with food := [⟨⟨10, 10⟩⟩] } ∧
    Point.mk 10 10 ∈ c6Game.snake.parts ∧
    c6Game.isPelletOnSnake ⟨⟨10, 10⟩⟩ = false := by
  decide

/-- C7 counterexample: the history of `c7Trace` ends in NINE identical
consecutive resolved entries — the random override is perpendicular to the
pending heading (left, set by the key press), and that includes the
repeated direction `up` itself. -/
theorem c7_counterexample :
    c7Trace.pastMoves = Dir.right :: List.replicate 9 Dir.up := by
  decide

/-- C7 amended: the resolved heading is always appended to the history;
when the last `sameMoves` history entries are identical the pending
heading is overridden by `randomMove` of the pending heading (not the
heading); without that condition resolution just adopts the pending
heading; and an agent actually HELD at pending heading up when the last
eight entries are all up resolves to left or right — the 9-in-a-row
guarantee holds only when the pending heading equals the repeated
direction, not after an intervening perpendicular key press. -/
theorem c7_restless_spec (s : ImpatientSnake) (r : Nat) :
    (s.determineNextMove r).pastMoves = s.pastMoves ++ [(s.determineNextMove r).dir] ∧
    (s.sameMoves ≤ s.pastMoves.length →
      checkPastMovesAllSame s.pastMoves s.sameMoves = true →
      (s.determineNextMove r).dir = randomMove s.nextDir r ∧
      (s.determineNextMove r).nextDir = randomMove s.nextDir r) ∧
    (¬ (s.sameMoves ≤ s.pastMoves.length ∧
        checkPastMovesAllSame s.pastMoves s.sameMoves = true) →
      (s.determineNextMove r).dir = s.nextDir ∧
      (s.determineNextMove r).nextDir = s.nextDir) ∧
    (s.sameMoves ≤ s.pastMoves.length →
      checkPastMovesAllSame s.pastMoves s.sameMoves = true →
      s.nextDir = Dir.up →
      ((s.determineNextMove r).dir = Dir.left ∨ (s.determineNextMove r).dir = Dir.right)) := by
  by_cases hc : (s.pastMoves.length ≥ s.sameMoves &&
      checkPastMovesAllSame s.pastMoves s.sameMoves) = true
  · obtain ⟨hlen, hsame⟩ := by simpa using hc
    refine ⟨?_, fun _ _ => ⟨?_, ?_⟩, fun hn => absurd ⟨hlen, hsame⟩ hn, fun _ _ hup => ?_⟩
    · simp [ImpatientSnake.determineNextMove, hc]
    · simp [ImpatientSnake.determineNextMove, hc]
    · simp [ImpatientSnake.determineNextMove, hc]
    · simp only [ImpatientSnake.determineNextMove, hc, if_true]
      rw [hup]
      unfold randomMove
      rcases Nat.even_or_odd r with he | ho
      · left
        simp [Nat.even_iff.mp he]
      · right
        simp [Nat.odd_iff.mp ho]
  · have hsplit : ¬ (s.sameMoves ≤ s.pastMoves.length ∧
        checkPastMovesAllSame s.pastMoves s.sameMoves = true) := by
      intro ⟨h1, h2⟩
      exact hc (by simp [h1, h2])
    refine ⟨?_, fun h1 h2 => absurd ⟨h1, h2⟩ hsplit, fun _ => ⟨?_, ?_⟩, fun h1 h2 _ =>
      absurd ⟨h1, h2⟩ hsplit⟩ <;>
      simp [ImpatientSnake.determineNextMove, hc]

/-- Witness for the amended C7 at the held-at-up snake with draw 0: the
resolution appends to the history and lands on left or right. -/
theorem c7_restless_spec_witness :
    (c7HeldSnake.determineNextMove 0).pastMoves
        = c7HeldSnake.pastMoves ++ [(c7HeldSnake.determineNextMove 0).dir] ∧
    ((c7HeldSnake.determineNextMove 0).dir = Dir.left ∨
      (c7HeldSnake.determineNextMove 0).dir = Dir.right) :=
  ⟨(c7_restless_spec c7HeldSnake 0).1,
    (c7_restless_spec c7HeldSnake 0).2.2.2 (by decide) (by decide) rfl⟩

/-- C8: the terminal tick cancels the timer but fails to detach the
keydown listener — `start` registered `this.keyListener.bind(this)` while
the removal passes the different function object `this.keyListener` — so
after the terminal tick a key press still reaches `handleKey` and changes
the pending heading. -/
theorem c8_listener_bug :
    ∃ g', (c8Game.start).tick 0 [] = some g' ∧
      g'.timerActive = false ∧
      Listener.bound ∈ g'.listeners ∧
      g'.snake.nextDir = Dir.right ∧
      (g'.dispatchKeydown "ArrowUp").snake.nextDir = Dir.up :=
  ⟨{ snake := Snake.init arrowKeymap ⟨0, 15⟩ Dir.right, food := [], numFood := 3,
     timerActive := false, listeners := [Listener.bound] }, by decide⟩

/-- C10: the acceptance test for a candidate pellet reads only the snake
(two games differing arbitrarily in food, target count, timer and
listeners but sharing the snake agree on it), and consequently a
replenishment draw can duplicate an existing pellet position: `refillFood`
on `c10Game` returns a food set with two pellets at (5,5). -/
theorem c10_acceptance_ignores_food :
    (∀ (s : Snake) (f₁ f₂ : List Pellet) (n₁ n₂ : Nat) (t₁ t₂ : Bool)
        (l₁ l₂ : List Listener) (p : Pellet),
      Game.isPelletOnSnake ⟨s, f₁, n₁, t₁, l₁⟩ p = Game.isPelletOnSnake ⟨s, f₂, n₂, t₂, l₂⟩ p) ∧
    Game.refillFood 1 [(4, 4)] c10Game = some { c10Game with food := [⟨⟨5, 5⟩⟩, ⟨⟨5, 5⟩⟩] } := by
  exact ⟨fun s f₁ f₂ n₁ n₂ t₁ t₂ l₁ l₂ p => rfl, by decide⟩

/-- Witness for C3 at the spec's head-at-(0,15) scenario. -/
theorem c3_tick_terminal_witness :
    ∃ g', c3Game.tick 5 [(1, 2)] = some g' ∧
      g'.snake = c3Game.snake ∧ g'.food = c3Game.food ∧ g'.timerActive = false ∧
      ∃ g'', Game.ticks [(3, [(1, 2)]), (0, [])] g' = some g'' ∧
        g''.snake = c3Game.snake ∧ g''.food = c3Game.food ∧ g''.timerActive = false :=
  c3_tick_terminal c3Game (by decide) 5 [(1, 2)] [(3, [(1, 2)]), (0, [])]
